import Mathlib

/-!
Shallow embedding of the Visage biometric-authentication daemon, checked
against its specification.

The embedding covers:
* `crates/visage-core/src/liveness.rs` — landmark-stability liveness check;
* `crates/visaged/src/rate_limiter.rs` — per-user sliding-window rate limiter;
* `crates/visaged/src/store.rs` — encrypted face-model store (serialisation,
  blob layout, SQL-level row operations);
* `crates/visaged/src/dbus_interface.rs` — the `Verify` orchestration;
* `crates/visaged/src/config.rs` — environment-derived configuration;
* `crates/pam-visage/src/lib.rs` — the PAM entry points.

Machine floats are modelled bitwise (an `f32` is its 32-bit pattern, a `Nat`
below `2 ^ 32`) where the code is bit-exact (the store's byte serialisation),
and as rationals with the square-root primitive abstracted where the code does
approximate arithmetic (liveness, cosine matching).  Time (`std::time::Instant`)
is modelled as a natural number of seconds.  Randomness (nonces, UUIDs) and
the OS environment (bus peers, NSS lookups, the engine hardware) are
externalised as explicit inputs.
-/

namespace Visage

/-! ## Liveness check — `visage-core/src/liveness.rs` -/

/-- One SCRFD 5-point landmark frame: indices 0 and 1 of the source array are
the left- and right-eye centres; the remaining three points (nose, mouth
corners) are never read by the liveness check but are kept for fidelity. -/
structure Landmarks where
  leftEye : ℚ × ℚ
  rightEye : ℚ × ℚ
  nose : ℚ × ℚ
  mouthLeft : ℚ × ℚ
  mouthRight : ℚ × ℚ
  deriving Repr, DecidableEq

/-- Result of a landmark-stability liveness check (`LivenessResult`). -/
structure LivenessResult where
  isLive : Bool
  meanEyeDisplacement : ℚ
  framePairsAnalysed : Nat
  deriving Repr, DecidableEq

/-- `DEFAULT_MIN_EYE_DISPLACEMENT = 0.8` px. -/
def defaultMinEyeDisplacement : ℚ := 8 / 10

/-- Euclidean displacement of one landmark point between two frames, written
with an abstract square-root primitive `sq` standing for `f32::sqrt`. -/
def pointDisplacement (sq : ℚ → ℚ) (prev curr : ℚ × ℚ) : ℚ :=
  let dx := curr.1 - prev.1
  let dy := curr.2 - prev.2
  sq (dx * dx + dy * dy)

/-- Per-pair displacement accumulated by the loop body: the average of the
left-eye and right-eye displacements between two consecutive frames. -/
def pairDisplacement (sq : ℚ → ℚ) (prev curr : Landmarks) : ℚ :=
  (pointDisplacement sq prev.leftEye curr.leftEye +
    pointDisplacement sq prev.rightEye curr.rightEye) / 2

/-- `check_landmark_stability` from `visage-core/src/liveness.rs`, translated
over rationals with the square-root primitive `sq` abstracted.  The `windows(2)`
loop is rendered as a fold over the list of consecutive frame pairs
(`seq.zip seq.tail`). -/
def checkLandmarkStability (sq : ℚ → ℚ) (landmarkSequence : List Landmarks)
    (minDisplacement : Option ℚ) : LivenessResult :=
  let threshold := minDisplacement.getD defaultMinEyeDisplacement
  if landmarkSequence.length < 2 then
    { isLive := true, meanEyeDisplacement := 0, framePairsAnalysed := 0 }
  else
    let pairs := landmarkSequence.zip landmarkSequence.tail
    let totalDisplacement :=
      pairs.foldl (fun acc p => acc + pairDisplacement sq p.1 p.2) 0
    let pairCount := pairs.length
    let meanDisplacement :=
      if 0 < pairCount then totalDisplacement / (pairCount : ℚ) else 0
    { isLive := decide (meanDisplacement ≥ threshold)
      meanEyeDisplacement := meanDisplacement
      framePairsAnalysed := pairCount }

/-! ## Rate limiter — `visaged/src/rate_limiter.rs` -/

/-- `MAX_FAILURES = 5`. -/
def maxFailures : Nat := 5

/-- `WINDOW = 60 s`. -/
def windowSecs : Nat := 60

/-- `LOCKOUT = 300 s`. -/
def lockoutSecs : Nat := 300

/-- Per-user record: `failures`, `window_start`, `locked_until`.  Instants are
seconds on a monotonic clock. -/
structure UserRecord where
  failures : Nat
  windowStart : Nat
  lockedUntil : Option Nat
  deriving Repr, DecidableEq

/-- The rate limiter's `HashMap<String, UserRecord>`, extensionally: the map
sending each user name to its record, if any. -/
abbrev RateLimiter := String → Option UserRecord

/-- Map lookup. -/
def RateLimiter.find (rl : RateLimiter) (user : String) : Option UserRecord :=
  rl user

/-- Map insertion/overwrite for one key (the effect of writing through an
`entry(..)` handle). -/
def RateLimiter.set (rl : RateLimiter) (user : String) (rec : UserRecord) :
    RateLimiter :=
  fun key => if key = user then some rec else rl key

/-- The record produced by `or_insert` when the user has no entry yet. -/
def freshRecord (now : Nat) : UserRecord :=
  { failures := 0, windowStart := now, lockedUntil := none }

/-- `RateLimiter::check`: `Ok` (with the possibly-updated map) if the user may
attempt verification, `Err message` if currently locked.  `now` is the value
of `Instant::now()`; `duration_since` is saturating subtraction. -/
def RateLimiter.check (rl : RateLimiter) (user : String) (now : Nat) :
    Except String RateLimiter :=
  let rec0 := (RateLimiter.find rl user).getD (freshRecord now)
  match rec0.lockedUntil with
  | some lockedUntil =>
    if now < lockedUntil then
      .error ("too many failed attempts; try again in " ++
        toString (lockedUntil - now) ++ "s")
    else
      .ok (RateLimiter.set rl user (freshRecord now))
  | none =>
    if windowSecs ≤ now - rec0.windowStart then
      .ok (RateLimiter.set rl user { rec0 with failures := 0, windowStart := now })
    else
      .ok (RateLimiter.set rl user rec0)

/-- `RateLimiter::record_failure`: count a failed verification, locking the
user once the counter reaches `MAX_FAILURES`. -/
def RateLimiter.recordFailure (rl : RateLimiter) (user : String) (now : Nat) :
    RateLimiter :=
  let rec0 := (RateLimiter.find rl user).getD (freshRecord now)
  let rec1 :=
    if windowSecs ≤ now - rec0.windowStart then
      { rec0 with failures := 0, windowStart := now }
    else rec0
  let failures := rec1.failures + 1
  let rec2 :=
    if maxFailures ≤ failures then
      { rec1 with failures := failures, lockedUntil := some (now + lockoutSecs) }
    else
      { rec1 with failures := failures }
  RateLimiter.set rl user rec2

/-- `RateLimiter::record_success`: drop the user's record entirely. -/
def RateLimiter.recordSuccess (rl : RateLimiter) (user : String) : RateLimiter :=
  fun key => if key = user then none else rl key

/-! ## Face model store — `visaged/src/store.rs`

An `f32` is modelled by its IEEE-754 bit pattern, a natural number below
`2 ^ 32`; the store only moves float values between little-endian bytes and
rows, so the bit-level model captures it exactly. -/

/-- `EMBEDDING_DIM = 512`. -/
def embeddingDim : Nat := 512

/-- `EMBEDDING_BYTE_LEN = EMBEDDING_DIM * 4 = 2048`. -/
def embeddingByteLen : Nat := embeddingDim * 4

/-- `f32::is_finite` on a bit pattern: the exponent field (bits 23–30) is not
all ones. -/
def isFiniteF32 (bits : Nat) : Bool :=
  decide (bits / 2 ^ 23 % 2 ^ 8 ≠ 255)

/-- `f32::to_le_bytes` on a bit pattern (the value is reduced mod `2 ^ 32` as
a 32-bit word). -/
def f32ToLeBytes (bits : Nat) : List Nat :=
  [bits % 2 ^ 8, bits / 2 ^ 8 % 2 ^ 8, bits / 2 ^ 16 % 2 ^ 8,
    bits / 2 ^ 24 % 2 ^ 8]

/-- `f32::from_le_bytes` on four bytes. -/
def f32FromLeBytes (b0 b1 b2 b3 : Nat) : Nat :=
  b0 % 2 ^ 8 + b1 % 2 ^ 8 * 2 ^ 8 + b2 % 2 ^ 8 * 2 ^ 16 + b3 % 2 ^ 8 * 2 ^ 24

/-- `StoreError` from `visaged/src/store.rs`. -/
inductive StoreError where
  | db (msg : String)
  | rusqlite (msg : String)
  | encryptionFailed
  | decryptionFailed
  | invalidBlob (len : Nat)
  | invalidEmbeddingDim (dim : Nat)
  | invalidEmbeddingValue
  | keyIo (msg : String)
  deriving Repr, DecidableEq

/-- `thiserror` rendering of a `StoreError` (the `#[error(..)]` strings). -/
def StoreError.message : StoreError → String
  | .db msg => "database error: " ++ msg
  | .rusqlite msg => "rusqlite error: " ++ msg
  | .encryptionFailed => "embedding encryption failed"
  | .decryptionFailed =>
    "embedding decryption failed — key mismatch or corrupted data"
  | .invalidBlob len => "invalid embedding blob size: " ++ toString len ++ " bytes"
  | .invalidEmbeddingDim dim =>
    "invalid embedding dimension: " ++ toString dim ++ " (expected 512)"
  | .invalidEmbeddingValue => "invalid embedding value (NaN/Inf)"
  | .keyIo msg => "encryption key I/O error: " ++ msg

/-- `embedding_to_bytes`: little-endian concatenation of the 4-byte encodings. -/
def embeddingToBytes (values : List Nat) : List Nat :=
  (values.map f32ToLeBytes).flatten

/-- The chunk loop of `bytes_to_embedding_strict`: parse the bytes four at a
time, failing on the first non-finite value.  The input length is a multiple
of four when the function is reached (checked by the caller). -/
def parseF32Chunks : List Nat → Except StoreError (List Nat)
  | [] => .ok []
  | b0 :: b1 :: b2 :: b3 :: rest =>
    let v := f32FromLeBytes b0 b1 b2 b3
    if isFiniteF32 v then
      match parseF32Chunks rest with
      | .ok values => .ok (v :: values)
      | .error e => .error e
    else
      .error .invalidEmbeddingValue
  | bytes => .error (.invalidBlob bytes.length)

/-- `bytes_to_embedding_strict`: exact length check, chunk parse with
finiteness validation, dimension re-check. -/
def bytesToEmbeddingStrict (bytes : List Nat) : Except StoreError (List Nat) :=
  if bytes.length ≠ embeddingByteLen then
    .error (.invalidBlob bytes.length)
  else
    match parseF32Chunks bytes with
    | .error e => .error e
    | .ok values =>
      if values.length ≠ embeddingDim then
        .error (.invalidEmbeddingDim values.length)
      else
        .ok values

/-- `validate_embedding_values`: dimension then finiteness. -/
def validateEmbeddingValues (values : List Nat) : Except StoreError Unit :=
  if values.length ≠ embeddingDim then
    .error (.invalidEmbeddingDim values.length)
  else if values.any (fun v => ¬ isFiniteF32 v) then
    .error .invalidEmbeddingValue
  else
    .ok ()

/-- Interface contract of the external `aes_gcm` crate's `Aes256Gcm` as used
by the store: a deterministic AEAD on byte lists whose decryption inverts
encryption under the same key and nonce, and whose ciphertext is the plaintext
length plus the 16-byte GCM tag.  The store's own code is everything outside
this structure; the cipher itself is library code, carried here as an abstract
parameter with exactly the properties the library guarantees. -/
structure AeadCipher where
  encrypt : List Nat → List Nat → List Nat → List Nat
  decrypt : List Nat → List Nat → List Nat → Option (List Nat)
  decrypt_encrypt : ∀ key nonce plaintext,
    decrypt key nonce (encrypt key nonce plaintext) = some plaintext
  encrypt_length : ∀ key nonce plaintext,
    (encrypt key nonce plaintext).length = plaintext.length + 16

/-- `NONCE_LEN = 12` (96-bit GCM nonce). -/
def nonceLen : Nat := 12

/-- `FaceModelStore::encrypt_embedding`: validate, serialise, encrypt with the
supplied fresh random nonce (the `OsRng` draw is externalised into the `nonce`
argument), output `nonce || ciphertext`. -/
def encryptEmbedding (c : AeadCipher) (key nonce : List Nat)
    (values : List Nat) : Except StoreError (List Nat) :=
  match validateEmbeddingValues values with
  | .error e => .error e
  | .ok _ =>
    let plaintext := embeddingToBytes values
    .ok (nonce ++ c.encrypt key nonce plaintext)

/-- `FaceModelStore::decrypt_embedding`: accept a legacy 2048-byte plaintext
blob, otherwise split off the 12-byte nonce, decrypt, and strictly parse. -/
def decryptEmbedding (c : AeadCipher) (key : List Nat) (blob : List Nat) :
    Except StoreError (List Nat) :=
  if blob.length = embeddingByteLen then
    bytesToEmbeddingStrict blob
  else if blob.length ≤ nonceLen then
    .error (.invalidBlob blob.length)
  else
    let nonceBytes := blob.take nonceLen
    let ciphertext := blob.drop nonceLen
    match c.decrypt key nonceBytes ciphertext with
    | none => .error .decryptionFailed
    | some plaintext => bytesToEmbeddingStrict plaintext

/-- An `Embedding` (`visage_core::Embedding`): bit-pattern values plus the
producing model's version tag. -/
structure EmbeddingRec where
  values : List Nat
  modelVersion : Option String
  deriving Repr, DecidableEq

/-- A row of the `faces` table. -/
structure FaceRow where
  id : String
  user : String
  label : String
  embedding : List Nat
  modelVersion : String
  qualityScore : Nat
  poseLabel : String
  createdAt : String
  deriving Repr, DecidableEq

/-- The `faces` table, in insertion order. -/
abbrev FacesDb := List FaceRow

/-- `visage_core::FaceModel` as materialised by `get_gallery_for_user`. -/
structure FaceModel where
  id : String
  user : String
  label : String
  embedding : EmbeddingRec
  createdAt : String
  deriving Repr, DecidableEq

/-- `ModelInfo` (metadata only) as returned by `list_by_user`. -/
structure ModelInfo where
  id : String
  label : String
  modelVersion : String
  qualityScore : Nat
  createdAt : String
  deriving Repr, DecidableEq

/-- `FaceModelStore::insert`: validate, encrypt, append the row.  The UUID-v4
draw and the `Utc::now()` timestamp are externalised into the `newId` and
`createdAt` arguments, and the nonce draw into `nonce`. -/
def FaceModelStore.insert (c : AeadCipher) (key : List Nat) (db : FacesDb)
    (newId createdAt : String) (nonce : List Nat) (user label : String)
    (embedding : EmbeddingRec) (qualityScore : Nat) :
    Except StoreError (String × FacesDb) :=
  let modelVersion := embedding.modelVersion.getD "unknown"
  match validateEmbeddingValues embedding.values with
  | .error e => .error e
  | .ok _ =>
    match encryptEmbedding c key nonce embedding.values with
    | .error e => .error e
    | .ok blob =>
      let row : FaceRow :=
        { id := newId, user := user, label := label, embedding := blob,
          modelVersion := modelVersion, qualityScore := qualityScore,
          poseLabel := "frontal", createdAt := createdAt }
      .ok (newId, db ++ [row])

/-- The decryption loop over the fetched rows in `get_gallery_for_user`. -/
def decryptRows (c : AeadCipher) (key : List Nat) :
    List FaceRow → Except StoreError (List FaceModel)
  | [] => .ok []
  | row :: rest =>
    match decryptEmbedding c key row.embedding with
    | .error e => .error e
    | .ok values =>
      match decryptRows c key rest with
      | .error e => .error e
      | .ok models =>
        let model : FaceModel :=
          { id := row.id, user := row.user, label := row.label,
            embedding := { values := values,
                           modelVersion := some row.modelVersion },
            createdAt := row.createdAt }
        .ok (model :: models)

/-- `FaceModelStore::get_gallery_for_user`: `SELECT .. WHERE user = ?1`, then
decrypt every row's blob. -/
def FaceModelStore.getGalleryForUser (c : AeadCipher) (key : List Nat)
    (db : FacesDb) (user : String) : Except StoreError (List FaceModel) :=
  decryptRows c key (db.filter (fun row => row.user = user))

/-- `FaceModelStore::list_by_user`:
`SELECT .. WHERE user = ?1 ORDER BY created_at`, metadata only. -/
def FaceModelStore.listByUser (db : FacesDb) (user : String) : List ModelInfo :=
  let toInfo : FaceRow → ModelInfo := fun row =>
    { id := row.id, label := row.label, modelVersion := row.modelVersion,
      qualityScore := row.qualityScore, createdAt := row.createdAt }
  ((db.filter (fun row => row.user = user)).map toInfo).mergeSort
    (fun a b => a.createdAt ≤ b.createdAt)

/-- `FaceModelStore::remove`: `DELETE FROM faces WHERE id = ?1 AND user = ?2`;
returns whether any row was deleted, together with the resulting table. -/
def FaceModelStore.remove (db : FacesDb) (user modelId : String) :
    Bool × FacesDb :=
  let hit := fun (row : FaceRow) => row.id = modelId ∧ row.user = user
  (decide (0 < db.countP (fun row => decide (hit row))),
    db.filter (fun row => ¬ hit row))

/-- `FaceModelStore::count_all`. -/
def FaceModelStore.countAll (db : FacesDb) : Nat := db.length

/-! ## Configuration — `visaged/src/config.rs`

Only the claim-relevant line is embedded: the process environment is a partial
map from variable names to (Unicode) values. -/

/-- The `session_bus` field of `Config::from_env`, line 70:
`std::env::var("VISAGE_SESSION_BUS").is_ok()` — true exactly when the
variable is set, whatever its value. -/
def sessionBusFromEnv (env : String → Option String) : Bool :=
  (env "VISAGE_SESSION_BUS").isSome

/-! ## Engine — spec-modelled verify pipeline

The engine translation below is marked `Modelled from the spec`: the engine
draft under `visaged/src/engine.rs` does not type-check against its callers
(`EngineHandle::verify` takes three arguments there while `dbus_interface.rs`
passes four, and `main.rs` passes five arguments to the four-parameter
`spawn_engine`), so the engine actually compiled into the daemon — the one
with the timeout parameter and the liveness gate — is not among the provided
sources.  Its per-frame loop is modelled from spec §4.4 (which the stale draft
also follows) and the liveness gate from §4.3/§4.4; the landmark-stability
check itself is the source translation `checkLandmarkStability` above. -/

/-- `MatchResult` (`visage_core`): outcome of comparing a probe against a
gallery.  Similarity scores are rationals standing for `f32` arithmetic. -/
structure MatchResult where
  matched : Bool
  similarity : ℚ
  modelId : Option String
  modelLabel : Option String
  deriving Repr, DecidableEq

/-- `VerifyResult` from `visaged/src/engine.rs`. -/
structure VerifyResult where
  result : MatchResult
  bestQuality : ℚ
  deriving Repr, DecidableEq

/-- `EngineError` from `visaged/src/engine.rs`, plus the timeout kind the spec
lists for the shipped engine (§7). -/
inductive EngineError where
  | camera (msg : String)
  | detector (msg : String)
  | recognizer (msg : String)
  | noFaceDetected
  | timeout
  | channelClosed
  deriving Repr, DecidableEq

/-- `thiserror` rendering of an `EngineError`. -/
def EngineError.message : EngineError → String
  | .camera msg => "camera error: " ++ msg
  | .detector msg => "detector error: " ++ msg
  | .recognizer msg => "recognizer error: " ++ msg
  | .noFaceDetected => "no face detected in any captured frame"
  | .timeout => "verification timed out"
  | .channelClosed => "engine thread exited"

/-- A gallery entry as the engine sees it: identity plus numeric embedding. -/
structure GalleryEntry where
  id : String
  label : String
  values : List ℚ
  deriving Repr, DecidableEq

/-- Dot product of two embeddings (`⟨p, g⟩`). -/
def dotProduct (p g : List ℚ) : ℚ :=
  ((p.zip g).map (fun x => x.1 * x.2)).sum

/-- Modelled from the spec: cosine similarity of §4.4 Matching,
`sim = ⟨p, g⟩ / (‖p‖·‖g‖)`, with the square-root primitive abstracted as
`sq` (rational division is total, with division by zero yielding zero, as in
Lean's convention). -/
def cosineSimilarity (sq : ℚ → ℚ) (p g : List ℚ) : ℚ :=
  dotProduct p g / (sq (dotProduct p p) * sq (dotProduct g g))

/-- The synthesized non-match result (zero similarity, no candidate). -/
def nonMatchResult : MatchResult :=
  { matched := false, similarity := 0, modelId := none, modelLabel := none }

/-- Modelled from the spec: the `CosineMatcher::compare` of §4.4 — the gallery
entry with the largest similarity is the candidate; `matched = (sim ≥
threshold)`; the candidate's identity is reported iff matched. -/
def cosineCompare (sq : ℚ → ℚ) (probe : List ℚ) (gallery : List GalleryEntry)
    (threshold : ℚ) : MatchResult :=
  let best := gallery.foldl
    (fun (acc : Option (GalleryEntry × ℚ)) entry =>
      let sim := cosineSimilarity sq probe entry.values
      match acc with
      | none => some (entry, sim)
      | some prev => if sim > prev.2 then some (entry, sim) else some prev)
    none
  match best with
  | none =>
    { matched := false, similarity := 0, modelId := none, modelLabel := none }
  | some (entry, sim) =>
    if sim ≥ threshold then
      { matched := true, similarity := sim, modelId := some entry.id,
        modelLabel := some entry.label }
    else
      { matched := false, similarity := sim, modelId := none,
        modelLabel := none }

/-- What one captured frame yielded after detection and extraction: nothing
(no face), or the detection confidence, the probe embedding, and the landmark
set when the detector produced one. -/
structure FaceObs where
  confidence : ℚ
  embedding : List ℚ
  landmarks : Option Landmarks
  deriving Repr, DecidableEq

/-- One engine verify pass over the captured frames (the loop of §4.4 Verify,
matching the stale draft's loop): fold keeping the result with the strictly
highest similarity, remembering that frame's detection confidence, and whether
any face was seen at all. -/
def verifyFrameLoop (sq : ℚ → ℚ) (frames : List (Option FaceObs))
    (gallery : List GalleryEntry) (threshold : ℚ) :
    Option MatchResult × ℚ × Bool :=
  frames.foldl
    (fun (acc : Option MatchResult × ℚ × Bool) frame =>
      match frame with
      | none => acc
      | some obs =>
        let result := cosineCompare sq obs.embedding gallery threshold
        let isBetter := match acc.1 with
          | none => true
          | some prev => result.similarity > prev.similarity
        if isBetter then (some result, obs.confidence, true)
        else (acc.1, acc.2.1, true))
    (none, 0, false)

/-- The landmark sequence the liveness gate receives: the landmarks of every
frame whose detection produced one, in frame order. -/
def landmarkSequenceOf (frames : List (Option FaceObs)) : List Landmarks :=
  frames.filterMap (fun frame => frame.bind (fun obs => obs.landmarks))

/-- Modelled from the spec: the shipped engine's verify algorithm (§4.4) —
empty capture fails with `NoFaceDetected`; otherwise run the per-frame loop;
fail with `NoFaceDetected` when no frame yielded a face; synthesize a
non-match when no comparison ran; and when liveness is enabled and at least
two frames yielded landmarks, run §4.3 on the landmark sequence and force
`matched = false` on failure, leaving the similarity score in place. -/
def runVerify (sq : ℚ → ℚ) (frames : List (Option FaceObs))
    (gallery : List GalleryEntry) (threshold : ℚ) (livenessEnabled : Bool)
    (minDisplacement : Option ℚ) : Except EngineError VerifyResult :=
  if frames.isEmpty then
    .error .noFaceDetected
  else
    let (bestResult, bestQuality, anyFaceDetected) :=
      verifyFrameLoop sq frames gallery threshold
    if ¬ anyFaceDetected then
      .error .noFaceDetected
    else
      let result := bestResult.getD nonMatchResult
      let seq := landmarkSequenceOf frames
      let result :=
        if livenessEnabled ∧ 2 ≤ seq.length then
          let liveness := checkLandmarkStability sq seq minDisplacement
          if ¬ liveness.isLive then { result with matched := false }
          else result
        else result
      .ok { result := result, bestQuality := bestQuality }

/-! ## Service layer — `visaged/src/dbus_interface.rs` -/

/-- `zbus::fdo::Error` as used by the service: `Failed` or `AccessDenied`,
each carrying a message. -/
inductive FdoError where
  | failed (msg : String)
  | accessDenied (msg : String)
  deriving Repr, DecidableEq

/-- The environment a single `Verify` bus call observes: the config flag, the
message header's sender, the outcome of the bus connection-owner UID query,
the NSS lookup for the target user, the store contents, the engine's reply,
and the two `Instant::now()` readings taken by the rate-limiter calls. -/
structure VerifyEnv where
  sessionBus : Bool
  sender : Option String
  callerUid : Except String Nat
  uidForName : Option Nat
  cipher : AeadCipher
  key : List Nat
  db : FacesDb
  engineResult : Except EngineError VerifyResult
  checkNow : Nat
  recordNow : Nat

/-- Everything a `Verify` call produces: the bus reply, the rate-limiter map
afterwards, whether the engine was invoked, and whether the system-bus UID
validation block was entered. -/
structure VerifyOutcome where
  result : Except FdoError Bool
  rl : RateLimiter
  engineCalled : Bool
  uidCheckEntered : Bool

/-- The tail of `VisageService::verify` after the UID-validation block: rate
limit gate, gallery fetch, empty-gallery rejection, engine call, rate-limiter
recording keyed on `matched` only. -/
def serviceVerifyGate (env : VerifyEnv) (user : String) (rl : RateLimiter)
    (uidCheckEntered : Bool) : VerifyOutcome :=
  match RateLimiter.check rl user env.checkNow with
  | .error msg =>
    { result := .error (.failed msg), rl := rl, engineCalled := false,
      uidCheckEntered := uidCheckEntered }
  | .ok rl1 =>
    match FaceModelStore.getGalleryForUser env.cipher env.key env.db user with
    | .error e =>
      { result := .error (.failed e.message), rl := rl1,
        engineCalled := false, uidCheckEntered := uidCheckEntered }
    | .ok gallery =>
      if gallery.isEmpty then
        { result := .error (.failed ("no enrolled models for user '" ++
            user ++ "'")), rl := rl1, engineCalled := false,
          uidCheckEntered := uidCheckEntered }
      else
        match env.engineResult with
        | .error e =>
          { result := .error (.failed e.message), rl := rl1,
            engineCalled := true, uidCheckEntered := uidCheckEntered }
        | .ok r =>
          if r.result.matched then
            { result := .ok r.result.matched,
              rl := RateLimiter.recordSuccess rl1 user, engineCalled := true,
              uidCheckEntered := uidCheckEntered }
          else
            { result := .ok r.result.matched,
              rl := RateLimiter.recordFailure rl1 user env.recordNow,
              engineCalled := true, uidCheckEntered := uidCheckEntered }

/-- `VisageService::verify`: UID validation on the system bus (sender
presence, connection-owner UID query, root bypass, NSS target lookup), then
the gate above.  On the session bus the whole validation block is skipped. -/
def serviceVerify (env : VerifyEnv) (user : String) (rl : RateLimiter) :
    VerifyOutcome :=
  if env.sessionBus then
    serviceVerifyGate env user rl false
  else
    match env.sender with
    | none =>
      { result := .error (.failed "no sender in message"), rl := rl,
        engineCalled := false, uidCheckEntered := true }
    | some _ =>
      match env.callerUid with
      | .error msg =>
        { result := .error (.failed msg), rl := rl, engineCalled := false,
          uidCheckEntered := true }
      | .ok callerUid =>
        if callerUid ≠ 0 then
          match env.uidForName with
          | some expectedUid =>
            if callerUid = expectedUid then
              serviceVerifyGate env user rl true
            else
              { result := .error (.accessDenied
                  ("caller is not permitted to verify user '" ++ user ++ "'")),
                rl := rl, engineCalled := false, uidCheckEntered := true }
          | none =>
            { result := .error (.failed ("unknown user '" ++ user ++ "'")),
              rl := rl, engineCalled := false, uidCheckEntered := true }
        else
          serviceVerifyGate env user rl true

/-! ## PAM module — `crates/pam-visage/src/lib.rs` -/

/-- `PAM_SUCCESS = 0`. -/
def pamSuccess : Int := 0

/-- `PAM_IGNORE = 25`. -/
def pamIgnore : Int := 25

/-- The environment one `pam_sm_authenticate` call observes.  `panics` models
a panic anywhere inside the `catch_unwind` closure; `getUserRet` is
`pam_get_user`'s return code; `userPtr` is the written pointer — `none` for
null, `some none` for a non-UTF-8 C string, `some (some name)` for a valid
one (the libc/std string machinery is externalised); `verifyOutcome` is the
result of the blocking bus call `Visage1.Verify(name)`. -/
structure PamEnv where
  panics : Bool
  getUserRet : Int
  userPtr : Option (Option String)
  verifyOutcome : String → Except String Bool

/-- `pam_sm_authenticate`: the `catch_unwind`-wrapped body, with every failure
path collapsing to `PAM_IGNORE`. -/
def pamSmAuthenticate (env : PamEnv) : Int :=
  if env.panics then pamIgnore
  else if env.getUserRet ≠ pamSuccess then pamIgnore
  else
    match env.userPtr with
    | none => pamIgnore
    | some none => pamIgnore
    | some (some username) =>
      match env.verifyOutcome username with
      | .ok true => pamSuccess
      | .ok false => pamIgnore
      | .error _ => pamIgnore

/-- `pam_sm_setcred`: unconditional `PAM_IGNORE`. -/
def pamSmSetcred (_env : PamEnv) : Int :=
  pamIgnore

/-! ## Spec-side formulations used by the claims -/

/-- Landmark frame of all-zero points, used as an irrelevant `getD` fallback
when indexing below the length bound. -/
def defaultLandmarks : Landmarks :=
  { leftEye := (0, 0), rightEye := (0, 0), nose := (0, 0),
    mouthLeft := (0, 0), mouthRight := (0, 0) }

/-- The claim's formulation of the liveness statistic: the mean, over the
`n − 1` consecutive frame pairs, of the average of the left-eye and right-eye
Euclidean displacements, written by direct indexing rather than by the
source's `windows(2)` fold. -/
def claimMeanEyeDisplacement (sq : ℚ → ℚ) (seq : List Landmarks) : ℚ :=
  (∑ i ∈ Finset.range (seq.length - 1),
    pairDisplacement sq (seq.getD i defaultLandmarks)
      (seq.getD (i + 1) defaultLandmarks)) / ((seq.length - 1 : Nat) : ℚ)

/-! ## Concrete instances for witnesses -/

/-- A concrete cipher satisfying the `AeadCipher` contract (identity stream
with a 16-byte tag), used to instantiate witnesses. -/
def padTagCipher : AeadCipher where
  encrypt := fun _ _ plaintext => plaintext ++ List.replicate 16 0
  decrypt := fun _ _ ciphertext =>
    if 16 ≤ ciphertext.length then
      some (ciphertext.take (ciphertext.length - 16))
    else none
  decrypt_encrypt := by
    intro key nonce plaintext
    simp
  encrypt_length := by
    intro key nonce plaintext
    simp

/-- Five failures for "alice" at seconds 0, 10, 20, 30, 40 starting from the
empty map — a concrete run for the C4 witness. -/
def lockoutRunExample : RateLimiter :=
  RateLimiter.recordFailure (RateLimiter.recordFailure
    (RateLimiter.recordFailure (RateLimiter.recordFailure
      (RateLimiter.recordFailure (fun _ => none) "alice" 0)
      "alice" 10) "alice" 20) "alice" 30) "alice" 40

/-- A legacy 2048-byte plaintext row for "alice" (all bytes zero, decoding to
512 copies of `0.0`). -/
def legacyRowExample : FaceRow :=
  { id := "11111111-1111-4111-8111-111111111111", user := "alice",
    label := "default", embedding := List.replicate embeddingByteLen 0,
    modelVersion := "w600k_r50", qualityScore := 0, poseLabel := "frontal",
    createdAt := "2026-01-01T00:00:00+00:00" }

/-- An engine reply reporting a non-match, for service-layer witnesses. -/
def nonMatchReplyExample : VerifyResult :=
  { result := nonMatchResult, bestQuality := 0 }

/-- Concrete `Verify` environment: system bus, caller UID 1001, target user
resolving to UID 1000 — the cross-user denial scenario. -/
def deniedEnvExample : VerifyEnv :=
  { sessionBus := false, sender := some ":1.42", callerUid := .ok 1001,
    uidForName := some 1000, cipher := padTagCipher, key := [],
    db := [legacyRowExample], engineResult := .ok nonMatchReplyExample,
    checkNow := 0, recordNow := 0 }

/-- Concrete `Verify` environment on the session bus with one enrolled legacy
row and a non-match engine reply. -/
def sessionEnvExample : VerifyEnv :=
  { sessionBus := true, sender := none, callerUid := .error "unused",
    uidForName := none, cipher := padTagCipher, key := [],
    db := [legacyRowExample], engineResult := .ok nonMatchReplyExample,
    checkNow := 0, recordNow := 0 }

/-- The denial environment with a target username no NSS entry resolves. -/
def unknownUserEnvExample : VerifyEnv :=
  { deniedEnvExample with uidForName := none }

/-- The session-bus environment with UID-related inputs filled in, to show
they are ignored. -/
def sessionEnvUidsExample : VerifyEnv :=
  { sessionEnvExample with
      sender := some ":1.99"
      callerUid := .ok 1001
      uidForName := some 1000 }

/-- The session-bus environment with the engine replying a camera error. -/
def cameraErrEnvExample : VerifyEnv :=
  { sessionEnvExample with engineResult := .error (.camera "gone") }

/-- The decrypted gallery produced by `legacyRowExample`. -/
def legacyGalleryExample : List FaceModel :=
  [{ id := "11111111-1111-4111-8111-111111111111", user := "alice",
     label := "default",
     embedding := { values := List.replicate embeddingDim 0,
                    modelVersion := some "w600k_r50" },
     createdAt := "2026-01-01T00:00:00+00:00" }]

/-- The post-`check` rate-limiter state in the service witnesses: the empty
map after `check("alice")` inserted the fresh record at second 0. -/
def postCheckRlExample : RateLimiter :=
  RateLimiter.set (fun _ => none) "alice" (freshRecord 0)

/-! ## Helper lemmas -/

/-- The liveness accumulation loop is the sum of the per-pair displacements. -/
theorem foldl_pairDisplacement_eq_sum (sq : ℚ → ℚ)
    (l : List (Landmarks × Landmarks)) :
    ∀ init : ℚ,
      l.foldl (fun acc p => acc + pairDisplacement sq p.1 p.2) init =
        init + (l.map (fun p => pairDisplacement sq p.1 p.2)).sum := by
  induction l with
  | nil => intro init; simp
  | cons x l ih => intro init; simp [ih, add_assoc]

/-- A mapped list sum as a `Finset.range` sum over positional `getD` reads. -/
theorem sum_map_eq_sum_range_getD {α : Type} (f : α → ℚ) (d : α)
    (l : List α) :
    (l.map f).sum = ∑ i ∈ Finset.range l.length, f (l.getD i d) := by
  induction l with
  | nil => simp
  | cons x l ih =>
    simp [Finset.sum_range_succ', List.getD_cons_succ, List.getD_cons_zero,
      ih, add_comm]

/-- Element `i` of `l.zip l.tail` is the pair of elements `i` and `i + 1` of
`l`. -/
theorem zip_tail_getD {α : Type} (d : α) :
    ∀ (l : List α) (i : Nat), i + 1 < l.length →
      (l.zip l.tail).getD i (d, d) = (l.getD i d, l.getD (i + 1) d)
  | [], i, h => by simp at h
  | [_], i, h => by simp at h
  | a :: b :: l, 0, _ => by simp
  | a :: b :: l, i + 1, h => by
    have := zip_tail_getD d (b :: l) i (by simpa using h)
    simpa using this

/-- `l.zip l.tail` has one pair per consecutive frame pair. -/
theorem length_zip_tail {α : Type} (l : List α) :
    (l.zip l.tail).length = l.length - 1 := by
  rw [List.length_zip, List.length_tail]
  omega

/-- A 32-bit pattern survives the little-endian byte split and reassembly. -/
theorem f32FromLeBytes_toLeBytes (b : Nat) (hb : b < 2 ^ 32) :
    f32FromLeBytes (b % 2 ^ 8) (b / 2 ^ 8 % 2 ^ 8) (b / 2 ^ 16 % 2 ^ 8)
      (b / 2 ^ 24 % 2 ^ 8) = b := by
  unfold f32FromLeBytes
  omega

/-- Serialising a value list prepends four bytes per head value. -/
theorem embeddingToBytes_cons (x : Nat) (v : List Nat) :
    embeddingToBytes (x :: v) = f32ToLeBytes x ++ embeddingToBytes v := by
  simp [embeddingToBytes]

/-- The serialised form is four bytes per value. -/
theorem embeddingToBytes_length (v : List Nat) :
    (embeddingToBytes v).length = 4 * v.length := by
  induction v with
  | nil => simp [embeddingToBytes]
  | cons x v ih =>
    rw [embeddingToBytes_cons]
    simp [f32ToLeBytes, ih]
    omega

/-- The strict chunk parser inverts serialisation on finite 32-bit values. -/
theorem parseF32Chunks_embeddingToBytes (v : List Nat)
    (hfin : ∀ b ∈ v, isFiniteF32 b = true) (hbits : ∀ b ∈ v, b < 2 ^ 32) :
    parseF32Chunks (embeddingToBytes v) = .ok v := by
  induction v with
  | nil => simp [embeddingToBytes, parseF32Chunks]
  | cons x v ih =>
    rw [embeddingToBytes_cons]
    have hx : f32FromLeBytes (x % 2 ^ 8) (x / 2 ^ 8 % 2 ^ 8)
        (x / 2 ^ 16 % 2 ^ 8) (x / 2 ^ 24 % 2 ^ 8) = x :=
      f32FromLeBytes_toLeBytes x (hbits x (List.mem_cons_self x v))
    have hxf : isFiniteF32 x = true := hfin x (List.mem_cons_self x v)
    have hrest : parseF32Chunks (embeddingToBytes v) = .ok v :=
      ih (fun b hb => hfin b (List.mem_cons_of_mem x hb))
        (fun b hb => hbits b (List.mem_cons_of_mem x hb))
    simp only [f32ToLeBytes, List.cons_append, List.nil_append,
      parseF32Chunks, hx, hxf, if_true]
    simp [hrest]

/-- `bytes_to_embedding_strict` inverts `embedding_to_bytes` on a 512-entry
finite vector — the store's byte-level roundtrip. -/
theorem bytesToEmbeddingStrict_embeddingToBytes (v : List Nat)
    (hlen : v.length = embeddingDim)
    (hfin : ∀ b ∈ v, isFiniteF32 b = true) (hbits : ∀ b ∈ v, b < 2 ^ 32) :
    bytesToEmbeddingStrict (embeddingToBytes v) = .ok v := by
  unfold bytesToEmbeddingStrict
  rw [embeddingToBytes_length, hlen,
    if_neg (by simp [embeddingDim, embeddingByteLen]),
    parseF32Chunks_embeddingToBytes v hfin hbits]
  simp [hlen]

/-- Serialising the all-zeros vector gives all-zero bytes. -/
theorem embeddingToBytes_replicate_zero (n : Nat) :
    embeddingToBytes (List.replicate n 0) = List.replicate (4 * n) 0 := by
  induction n with
  | zero => simp [embeddingToBytes]
  | succ n ih =>
    rw [List.replicate_succ, embeddingToBytes_cons, ih]
    have h4 : 4 * (n + 1) = 4 + 4 * n := by omega
    rw [h4, List.replicate_add]
    rfl

/-- The all-zeros legacy blob decodes to 512 zero values. -/
theorem bytesToEmbeddingStrict_replicate_zero :
    bytesToEmbeddingStrict (List.replicate embeddingByteLen 0) =
      .ok (List.replicate embeddingDim 0) := by
  have h : List.replicate embeddingByteLen 0 =
      embeddingToBytes (List.replicate embeddingDim 0) := by
    rw [embeddingToBytes_replicate_zero]
    norm_num [embeddingByteLen, embeddingDim]
  rw [h]
  exact bytesToEmbeddingStrict_embeddingToBytes _ (by simp)
    (by intro b hb; rw [List.eq_of_mem_replicate hb]; rfl)
    (by intro b hb; rw [List.eq_of_mem_replicate hb]; simp)

/-- Validation succeeds on a 512-entry finite vector. -/
theorem validateEmbeddingValues_ok (v : List Nat)
    (hlen : v.length = embeddingDim)
    (hfin : ∀ b ∈ v, isFiniteF32 b = true) :
    validateEmbeddingValues v = .ok () := by
  unfold validateEmbeddingValues
  rw [if_neg (by simp [hlen]), if_neg ?hfin]
  case hfin =>
    simp only [List.any_eq_true, decide_eq_true_eq, not_exists]
    push_neg
    intro b hb
    simp [hfin b hb]

/-- Encryption succeeds on a valid vector and produces the
`nonce || ciphertext` layout. -/
theorem encryptEmbedding_ok (c : AeadCipher) (key nonce : List Nat)
    (v : List Nat) (hlen : v.length = embeddingDim)
    (hfin : ∀ b ∈ v, isFiniteF32 b = true) :
    encryptEmbedding c key nonce v =
      .ok (nonce ++ c.encrypt key nonce (embeddingToBytes v)) := by
  unfold encryptEmbedding
  rw [validateEmbeddingValues_ok v hlen hfin]

/-- Decrypting a freshly produced blob recovers the vector bitwise: the blob
length (12 + 2048 + 16 = 2076) bypasses the legacy branch, the nonce splits
off, the cipher contract undoes the encryption and the strict parser undoes
the serialisation. -/
theorem decryptEmbedding_encrypted (c : AeadCipher) (key nonce : List Nat)
    (v : List Nat) (hlen : v.length = embeddingDim)
    (hfin : ∀ b ∈ v, isFiniteF32 b = true) (hbits : ∀ b ∈ v, b < 2 ^ 32)
    (hn : nonce.length = nonceLen) :
    decryptEmbedding c key (nonce ++ c.encrypt key nonce (embeddingToBytes v))
      = .ok v := by
  have hct := c.encrypt_length key nonce (embeddingToBytes v)
  have hpt : (embeddingToBytes v).length = 2048 := by
    rw [embeddingToBytes_length, hlen]; rfl
  unfold decryptEmbedding
  rw [if_neg (by
    simp only [List.length_append, hn, hct, hpt, nonceLen, embeddingByteLen,
      embeddingDim]
    omega)]
  rw [if_neg (by
    simp only [List.length_append, hn, hct, hpt, nonceLen]
    omega)]
  rw [show nonceLen = nonce.length from hn.symm, List.take_left,
    List.drop_left]
  simp only [c.decrypt_encrypt]
  exact bytesToEmbeddingStrict_embeddingToBytes v hlen hfin hbits

/-- Every model produced by the gallery decryption loop originates in one of
the fetched rows, with the same `user` and `id`. -/
theorem decryptRows_mem (c : AeadCipher) (key : List Nat) :
    ∀ (rows : List FaceRow) (models : List FaceModel),
      decryptRows c key rows = .ok models →
      ∀ fm ∈ models, ∃ row ∈ rows, fm.user = row.user ∧ fm.id = row.id := by
  intro rows
  induction rows with
  | nil =>
    intro models h fm hfm
    simp only [decryptRows] at h
    cases h
    simp at hfm
  | cons row rest ih =>
    intro models h fm hfm
    simp only [decryptRows] at h
    cases hd : decryptEmbedding c key row.embedding with
    | error e => rw [hd] at h; cases h
    | ok values =>
      rw [hd] at h
      cases hr : decryptRows c key rest with
      | error e => rw [hr] at h; cases h
      | ok ms =>
        rw [hr] at h
        simp only at h
        cases h
        rcases List.mem_cons.mp hfm with hhead | htail
        · subst hhead
          exact ⟨row, List.mem_cons_self row rest, rfl, rfl⟩
        · obtain ⟨r, hrmem, hru, hri⟩ := ih ms hr fm htail
          exact ⟨r, List.mem_cons_of_mem row hrmem, hru, hri⟩

/-- The gallery fetched for "alice" from the single legacy example row. -/
theorem legacyGallery_eval :
    FaceModelStore.getGalleryForUser padTagCipher [] [legacyRowExample]
      "alice" = .ok legacyGalleryExample := by
  unfold FaceModelStore.getGalleryForUser
  have hfilter : List.filter (fun row => decide (row.user = "alice"))
      [legacyRowExample] = [legacyRowExample] := by
    simp [legacyRowExample]
  rw [hfilter]
  unfold decryptRows
  have hdec : decryptEmbedding padTagCipher [] legacyRowExample.embedding =
      .ok (List.replicate embeddingDim 0) := by
    unfold decryptEmbedding
    rw [if_pos (by simp [legacyRowExample])]
    show bytesToEmbeddingStrict (List.replicate embeddingByteLen 0) = _
    exact bytesToEmbeddingStrict_replicate_zero
  rw [hdec]
  unfold decryptRows
  rfl

/-- Writing the same key twice keeps only the second record. -/
theorem RateLimiter.set_set (rl : RateLimiter) (u : String)
    (r r' : UserRecord) :
    RateLimiter.set (RateLimiter.set rl u r) u r' = RateLimiter.set rl u r' := by
  funext k
  by_cases h : k = u <;> simp [RateLimiter.set, h]

/-- Lookup after writing the same key. -/
theorem RateLimiter.find_set_self (rl : RateLimiter) (u : String)
    (r : UserRecord) : RateLimiter.find (RateLimiter.set rl u r) u = some r := by
  simp [RateLimiter.set, RateLimiter.find]

/-- One `record_failure` step on a user whose record is `r`, within the
window, below the lockout threshold. -/
theorem recordFailure_step (rl : RateLimiter) (u : String) (r : UserRecord)
    (now : Nat) (hfind : RateLimiter.find rl u = some r)
    (hw : now - r.windowStart < windowSecs)
    (hf : r.failures + 1 < maxFailures) :
    RateLimiter.recordFailure rl u now =
      RateLimiter.set rl u { r with failures := r.failures + 1 } := by
  unfold RateLimiter.recordFailure
  rw [hfind]
  simp only [Option.getD_some,
    if_neg (show ¬ windowSecs ≤ now - r.windowStart by omega),
    if_neg (show ¬ maxFailures ≤ r.failures + 1 by omega)]

/-- The `record_failure` step that reaches `MAX_FAILURES` and locks. -/
theorem recordFailure_lock_step (rl : RateLimiter) (u : String)
    (r : UserRecord) (now : Nat) (hfind : RateLimiter.find rl u = some r)
    (hw : now - r.windowStart < windowSecs)
    (hf : maxFailures ≤ r.failures + 1) :
    RateLimiter.recordFailure rl u now =
      RateLimiter.set rl u
        { r with failures := r.failures + 1,
                 lockedUntil := some (now + lockoutSecs) } := by
  unfold RateLimiter.recordFailure
  rw [hfind]
  simp only [Option.getD_some,
    if_neg (show ¬ windowSecs ≤ now - r.windowStart by omega),
    if_pos (show maxFailures ≤ r.failures + 1 from hf)]

/-- The first `record_failure` on a user with no record. -/
theorem recordFailure_first (rl : RateLimiter) (u : String) (now : Nat)
    (hfind : RateLimiter.find rl u = none) :
    RateLimiter.recordFailure rl u now =
      RateLimiter.set rl u
        { failures := 1, windowStart := now, lockedUntil := none } := by
  unfold RateLimiter.recordFailure
  rw [hfind]
  simp [freshRecord, windowSecs, maxFailures]

/-! ## Claim theorems -/

/-- C4: for any user `u` starting with no record, after `MAX_FAILURES = 5`
`record_failure(u)` calls within a `WINDOW = 60` second span, `check(u)`
rejects as locked (reporting the remaining seconds) at every instant earlier
than `LOCKOUT = 300` seconds past the fifth failure; at any instant from that
point on `check(u)` accepts and resets `u`'s record to clear; and
`record_success(u)` at any time deletes `u`'s record, so the next `check(u)`
accepts. -/
theorem rateLimiter_lockout_cycle
    (u : String) (rl0 rl5 : RateLimiter) (t1 t2 t3 t4 t5 : Nat)
    (h0 : RateLimiter.find rl0 u = none)
    (h12 : t1 ≤ t2) (h23 : t2 ≤ t3) (h34 : t3 ≤ t4) (h45 : t4 ≤ t5)
    (hspan : t5 < t1 + windowSecs)
    (hseq : rl5 = RateLimiter.recordFailure (RateLimiter.recordFailure
      (RateLimiter.recordFailure (RateLimiter.recordFailure
        (RateLimiter.recordFailure rl0 u t1) u t2) u t3) u t4) u t5) :
    (∀ t, t < t5 + lockoutSecs →
      RateLimiter.check rl5 u t = .error
        ("too many failed attempts; try again in " ++
          toString (t5 + lockoutSecs - t) ++ "s")) ∧
    (∀ t, t5 + lockoutSecs ≤ t →
      RateLimiter.check rl5 u t =
        .ok (RateLimiter.set rl5 u (freshRecord t))) ∧
    (∀ (rl : RateLimiter) (t : Nat),
      RateLimiter.check (RateLimiter.recordSuccess rl u) u t =
        .ok (RateLimiter.set (RateLimiter.recordSuccess rl u) u
          (freshRecord t))) := by
  have s1 : RateLimiter.recordFailure rl0 u t1 =
      RateLimiter.set rl0 u ⟨1, t1, none⟩ :=
    recordFailure_first rl0 u t1 h0
  have s2 : RateLimiter.recordFailure (RateLimiter.set rl0 u ⟨1, t1, none⟩)
      u t2 = RateLimiter.set rl0 u ⟨2, t1, none⟩ := by
    rw [recordFailure_step _ u ⟨1, t1, none⟩ t2 (RateLimiter.find_set_self ..)
      (show t2 - t1 < windowSecs by omega)
      (show 1 + 1 < maxFailures by decide), RateLimiter.set_set]
  have s3 : RateLimiter.recordFailure (RateLimiter.set rl0 u ⟨2, t1, none⟩)
      u t3 = RateLimiter.set rl0 u ⟨3, t1, none⟩ := by
    rw [recordFailure_step _ u ⟨2, t1, none⟩ t3 (RateLimiter.find_set_self ..)
      (show t3 - t1 < windowSecs by omega)
      (show 2 + 1 < maxFailures by decide), RateLimiter.set_set]
  have s4 : RateLimiter.recordFailure (RateLimiter.set rl0 u ⟨3, t1, none⟩)
      u t4 = RateLimiter.set rl0 u ⟨4, t1, none⟩ := by
    rw [recordFailure_step _ u ⟨3, t1, none⟩ t4 (RateLimiter.find_set_self ..)
      (show t4 - t1 < windowSecs by omega)
      (show 3 + 1 < maxFailures by decide), RateLimiter.set_set]
  have s5 : RateLimiter.recordFailure (RateLimiter.set rl0 u ⟨4, t1, none⟩)
      u t5 = RateLimiter.set rl0 u ⟨5, t1, some (t5 + lockoutSecs)⟩ := by
    rw [recordFailure_lock_step _ u ⟨4, t1, none⟩ t5
      (RateLimiter.find_set_self ..)
      (show t5 - t1 < windowSecs by omega)
      (show maxFailures ≤ 4 + 1 by decide), RateLimiter.set_set]
  have hrl5 : rl5 = RateLimiter.set rl0 u
      { failures := 5, windowStart := t1,
        lockedUntil := some (t5 + lockoutSecs) } := by
    rw [hseq, s1, s2, s3, s4, s5]
  have hfind5 : RateLimiter.find rl5 u = some
      { failures := 5, windowStart := t1,
        lockedUntil := some (t5 + lockoutSecs) } := by
    rw [hrl5]; exact RateLimiter.find_set_self ..
  refine ⟨?locked, ?expired, ?success⟩
  case locked =>
    intro t ht
    simp only [RateLimiter.check, hfind5, Option.getD_some]
    rw [if_pos ht]
  case expired =>
    intro t ht
    simp only [RateLimiter.check, hfind5, Option.getD_some]
    rw [if_neg (by omega)]
  case success =>
    intro rl t
    have hnone : RateLimiter.find (RateLimiter.recordSuccess rl u) u = none := by
      simp [RateLimiter.recordSuccess, RateLimiter.find]
    simp only [RateLimiter.check, hnone, Option.getD_none, freshRecord]
    rw [if_neg (by simp [windowSecs])]

/-- Witness for C4 at a concrete run: locked at second 100 with 240 s
remaining, clear again at second 340. -/
theorem rateLimiter_lockout_cycle_witness :
    RateLimiter.check lockoutRunExample "alice" 100 =
      .error "too many failed attempts; try again in 240s" ∧
    RateLimiter.check lockoutRunExample "alice" 340 =
      .ok (RateLimiter.set lockoutRunExample "alice" (freshRecord 340)) := by
  have h := rateLimiter_lockout_cycle "alice" (fun _ => none)
    lockoutRunExample 0 10 20 30 40 rfl (by omega) (by omega) (by omega)
    (by omega) (by simp [windowSecs]) rfl
  exact ⟨h.1 100 (by simp [lockoutSecs]), h.2.1 340 (by simp [lockoutSecs])⟩

/-- C7: on `n ≥ 2` landmark frames, `check_landmark_stability` returns
`frame_pairs_analysed = n − 1`, `mean_eye_displacement` equal to the mean over
the `n − 1` consecutive frame pairs of the average of the left-eye and
right-eye Euclidean displacements, and `is_live` exactly when that mean
reaches the threshold, whose default is `0.8`; on fewer than 2 frames it
returns `is_live = true` with displacement `0` and pair count `0`. -/
theorem checkLandmarkStability_spec :
    (∀ (sq : ℚ → ℚ) (seq : List Landmarks) (md : Option ℚ),
      2 ≤ seq.length →
      checkLandmarkStability sq seq md =
        { isLive := decide (claimMeanEyeDisplacement sq seq ≥
            md.getD defaultMinEyeDisplacement),
          meanEyeDisplacement := claimMeanEyeDisplacement sq seq,
          framePairsAnalysed := seq.length - 1 }) ∧
    (∀ (sq : ℚ → ℚ) (seq : List Landmarks) (md : Option ℚ),
      seq.length < 2 →
      checkLandmarkStability sq seq md =
        { isLive := true, meanEyeDisplacement := 0,
          framePairsAnalysed := 0 }) ∧
    defaultMinEyeDisplacement = 8 / 10 := by
  refine ⟨?main, ?short, rfl⟩
  case short =>
    intro sq seq md h
    simp [checkLandmarkStability, h]
  case main =>
    intro sq seq md h
    have hlen : (seq.zip seq.tail).length = seq.length - 1 :=
      length_zip_tail seq
    have hmean : (seq.zip seq.tail).foldl
        (fun acc p => acc + pairDisplacement sq p.1 p.2) 0 /
          (((seq.zip seq.tail).length : Nat) : ℚ) =
        claimMeanEyeDisplacement sq seq := by
      rw [foldl_pairDisplacement_eq_sum sq (seq.zip seq.tail) 0, zero_add,
        sum_map_eq_sum_range_getD _ (defaultLandmarks, defaultLandmarks),
        hlen]
      simp only [claimMeanEyeDisplacement]
      congr 1
      refine Finset.sum_congr rfl ?_
      intro i hi
      have hz := zip_tail_getD defaultLandmarks seq i
        (by simp only [Finset.mem_range] at hi; omega)
      rw [hz]
    simp only [checkLandmarkStability]
    rw [if_neg (by omega), if_pos (by rw [hlen]; omega)]
    rw [hmean, hlen]

/-- Witness for C7: the three-frame sequence of the Rust test
`test_mean_across_multiple_pairs` (eye displacement 1 px on the first pair,
0 px on the second); the inputs to the abstracted square root are 1 and 0,
both fixed points, so the identity serves as `sq`.  An empty-sequence edge
case follows. -/
theorem checkLandmarkStability_spec_witness :
    checkLandmarkStability (fun q => q)
      [⟨(100, 50), (140, 50), (0, 0), (0, 0), (0, 0)⟩,
       ⟨(101, 50), (141, 50), (0, 0), (0, 0), (0, 0)⟩,
       ⟨(101, 50), (141, 50), (0, 0), (0, 0), (0, 0)⟩] none =
      { isLive := false, meanEyeDisplacement := 1 / 2,
        framePairsAnalysed := 2 } ∧
    checkLandmarkStability (fun q => q) [] none =
      { isLive := true, meanEyeDisplacement := 0,
        framePairsAnalysed := 0 } := by
  constructor
  · rw [checkLandmarkStability_spec.1 (fun q => q)
      [⟨(100, 50), (140, 50), (0, 0), (0, 0), (0, 0)⟩,
       ⟨(101, 50), (141, 50), (0, 0), (0, 0), (0, 0)⟩,
       ⟨(101, 50), (141, 50), (0, 0), (0, 0), (0, 0)⟩] none (by decide)]
    simp [claimMeanEyeDisplacement, Finset.sum_range_succ, pairDisplacement,
      pointDisplacement, defaultLandmarks, defaultMinEyeDisplacement]
    norm_num
  · exact checkLandmarkStability_spec.2.1 (fun q => q)
      [] none (by decide)

/-- C9: `pam_sm_authenticate` returns 0 exactly when the bus `Verify` call
returns `Ok(true)` after a clean username extraction; every other outcome
(panic, `pam_get_user` failure, null pointer, invalid UTF-8, bus error,
`Ok(false)`) yields 25; `pam_sm_setcred` always returns 25; and neither entry
point returns any value other than 0 and 25. -/
theorem pam_return_codes :
    (∀ env : PamEnv,
      pamSmAuthenticate env = 0 ∨ pamSmAuthenticate env = 25) ∧
    (∀ env : PamEnv,
      pamSmAuthenticate env = 0 ↔
        env.panics = false ∧ env.getUserRet = 0 ∧
        ∃ u, env.userPtr = some (some u) ∧
          env.verifyOutcome u = .ok true) ∧
    (∀ env : PamEnv, pamSmSetcred env = 25) ∧
    pamSuccess = 0 ∧ pamIgnore = 25 := by
  refine ⟨?total, ?exact, fun _ => rfl, rfl, rfl⟩
  case total =>
    intro env
    unfold pamSmAuthenticate
    repeat' split
    all_goals first
      | exact Or.inl rfl
      | exact Or.inr rfl
  case exact =>
    intro env
    obtain ⟨p, r, up, vf⟩ := env
    constructor
    · intro h
      cases p with
      | true => simp [pamSmAuthenticate, pamIgnore] at h
      | false =>
        by_cases hr : r = 0
        · subst hr
          cases up with
          | none => simp [pamSmAuthenticate, pamSuccess, pamIgnore] at h
          | some o =>
            cases o with
            | none => simp [pamSmAuthenticate, pamSuccess, pamIgnore] at h
            | some u =>
              cases hv : vf u with
              | error e =>
                simp [pamSmAuthenticate, pamSuccess, pamIgnore, hv] at h
              | ok b =>
                cases b with
                | false =>
                  simp [pamSmAuthenticate, pamSuccess, pamIgnore, hv] at h
                | true => exact ⟨rfl, rfl, u, rfl, hv⟩
        · simp [pamSmAuthenticate, pamSuccess, pamIgnore, hr] at h
    · rintro ⟨hp, hr, u, hu, hv⟩
      simp only at hp hr hu hv
      subst hp hr hu
      simp [pamSmAuthenticate, pamSuccess, hv]

/-- Witness for C9 at concrete environments: a matching verify yields 0, a
daemon-absent bus error yields 25, and `pam_sm_setcred` yields 25. -/
theorem pam_return_codes_witness :
    pamSmAuthenticate
      { panics := false, getUserRet := 0,
        userPtr := some (some "alice"),
        verifyOutcome := fun _ => .ok true } = 0 ∧
    (pamSmAuthenticate
      { panics := false, getUserRet := 0,
        userPtr := some (some "alice"),
        verifyOutcome := fun _ =>
          .error "ServiceUnknown: daemon not running" } = 0 ∨
     pamSmAuthenticate
      { panics := false, getUserRet := 0,
        userPtr := some (some "alice"),
        verifyOutcome := fun _ =>
          .error "ServiceUnknown: daemon not running" } = 25) ∧
    pamSmSetcred
      { panics := false, getUserRet := 0, userPtr := none,
        verifyOutcome := fun _ => .ok false } = 25 := by
  refine ⟨?_, ?_, ?_⟩
  · exact (pam_return_codes.2.1 _).mpr ⟨rfl, rfl, "alice", rfl, rfl⟩
  · exact pam_return_codes.1 _
  · exact pam_return_codes.2.2.1 _

/-- Helper for C10 and C2: the post-UID-validation tail of `Verify` reports
back exactly the `uidCheckEntered` flag it was given. -/
theorem serviceVerifyGate_uidCheckEntered (env : VerifyEnv) (user : String)
    (rl : RateLimiter) (b : Bool) :
    (serviceVerifyGate env user rl b).uidCheckEntered = b := by
  unfold serviceVerifyGate
  repeat' split
  all_goals rfl

/-- C10: `Config::from_env` sets `session_bus` to true whenever
`VISAGE_SESSION_BUS` is set, whatever its value — including "0" and the empty
string — so no set value of that variable keeps UID-checked system-bus mode;
and `Verify` enters the caller-UID validation block exactly when
`session_bus` is false. -/
theorem sessionBus_env_and_uid_gate :
    (∀ (env : String → Option String) (v : String),
      env "VISAGE_SESSION_BUS" = some v → sessionBusFromEnv env = true) ∧
    (∀ (env : VerifyEnv) (user : String) (rl : RateLimiter),
      (serviceVerify env user rl).uidCheckEntered = !env.sessionBus) := by
  constructor
  · intro env v h
    simp [sessionBusFromEnv, h]
  · intro env user rl
    unfold serviceVerify
    split
    · next hs => simp [serviceVerifyGate_uidCheckEntered, hs]
    · next hs =>
      simp only [Bool.not_eq_true] at hs
      repeat' split
      all_goals simp [serviceVerifyGate_uidCheckEntered, hs]

/-- Witness for C10: `VISAGE_SESSION_BUS=0` and `VISAGE_SESSION_BUS=` (empty)
both select session-bus mode, and a session-bus verify never enters the UID
validation block. -/
theorem sessionBus_env_and_uid_gate_witness :
    sessionBusFromEnv
      (fun k => if k = "VISAGE_SESSION_BUS" then some "0" else none) = true ∧
    sessionBusFromEnv
      (fun k => if k = "VISAGE_SESSION_BUS" then some "" else none) = true ∧
    (serviceVerify sessionEnvExample "alice"
      (fun _ => none)).uidCheckEntered = false ∧
    (serviceVerify deniedEnvExample "alice"
      (fun _ => none)).uidCheckEntered = true := by
  refine ⟨?_, ?_, ?_, ?_⟩
  · exact sessionBus_env_and_uid_gate.1 _ "0" (by simp)
  · exact sessionBus_env_and_uid_gate.1 _ "" (by simp)
  · exact sessionBus_env_and_uid_gate.2 sessionEnvExample "alice" _
  · exact sessionBus_env_and_uid_gate.2 deniedEnvExample "alice" _

/-- C2: on the system bus, a resolved caller UID that is neither 0 nor the
UID the target username resolves to makes `Verify` return `AccessDenied`
with the rate limiter untouched and the engine never invoked; a username
that resolves to no UID makes it return `Failed("unknown user ...")`, again
before any rate-limiter or engine activity; and on the session bus the UID
check is skipped entirely — the reply is independent of the sender, the
caller-UID query and the NSS lookup. -/
theorem verify_uid_validation :
    (∀ (env : VerifyEnv) (user : String) (rl : RateLimiter) (s : String)
      (cu tu : Nat),
      env.sessionBus = false → env.sender = some s →
      env.callerUid = .ok cu → cu ≠ 0 →
      env.uidForName = some tu → cu ≠ tu →
      serviceVerify env user rl =
        { result := .error (.accessDenied
            ("caller is not permitted to verify user '" ++ user ++ "'")),
          rl := rl, engineCalled := false, uidCheckEntered := true }) ∧
    (∀ (env : VerifyEnv) (user : String) (rl : RateLimiter) (s : String)
      (cu : Nat),
      env.sessionBus = false → env.sender = some s →
      env.callerUid = .ok cu → cu ≠ 0 → env.uidForName = none →
      serviceVerify env user rl =
        { result := .error (.failed ("unknown user '" ++ user ++ "'")),
          rl := rl, engineCalled := false, uidCheckEntered := true }) ∧
    (∀ (env : VerifyEnv) (user : String) (rl : RateLimiter)
      (sender : Option String) (uid : Except String Nat)
      (nss : Option Nat),
      env.sessionBus = true →
      serviceVerify env user rl =
        serviceVerify
          { env with sender := sender, callerUid := uid, uidForName := nss }
          user rl) := by
  refine ⟨?denied, ?unknown, ?session⟩
  case denied =>
    intro env user rl s cu tu hsb hs hcu hne hu hnetu
    unfold serviceVerify
    rw [if_neg (by simp [hsb]), hs, hcu]
    simp [hu, hne, hnetu]
  case unknown =>
    intro env user rl s cu hsb hs hcu hne hu
    unfold serviceVerify
    rw [if_neg (by simp [hsb]), hs, hcu]
    simp [hu, hne]
  case session =>
    intro env user rl sender uid nss hsb
    unfold serviceVerify
    rw [if_pos (by simp [hsb]), if_pos (by simp [hsb])]
    rfl

set_option maxRecDepth 4096 in
/-- Witness for C2: caller UID 1001 asking to verify "alice" (UID 1000) on
the system bus is denied with the limiter and engine untouched; an unknown
target username fails; a session-bus call ignores the UID inputs. -/
theorem verify_uid_validation_witness :
    serviceVerify deniedEnvExample "alice" (fun _ => none) =
      { result := .error (.accessDenied
          "caller is not permitted to verify user 'alice'"),
        rl := fun _ => none, engineCalled := false,
        uidCheckEntered := true } ∧
    serviceVerify unknownUserEnvExample "ghost" (fun _ => none) =
      { result := .error (.failed "unknown user 'ghost'"),
        rl := fun _ => none, engineCalled := false,
        uidCheckEntered := true } ∧
    serviceVerify sessionEnvExample "alice" (fun _ => none) =
      serviceVerify sessionEnvUidsExample "alice" (fun _ => none) := by
  refine ⟨?_, ?_, ?_⟩
  · exact verify_uid_validation.1 deniedEnvExample "alice" _ ":1.42"
      1001 1000 rfl rfl rfl (by decide) rfl (by decide)
  · exact verify_uid_validation.2.1 unknownUserEnvExample "ghost" _ ":1.42"
      1001 rfl rfl rfl (by decide) rfl
  · exact verify_uid_validation.2.2 sessionEnvExample "alice" _
      (some ":1.99") (.ok 1001) (some 1000) rfl

/-- C3: once `Verify` has passed the rate-limit gate and fetched a non-empty
gallery, the rate limiter is updated only from the engine's `matched`
outcome — `record_success` on a match, `record_failure` on a non-match —
and an engine error propagates to the caller as `Failed` with the
post-`check` limiter state left untouched by any recording.  On the session
bus `Verify` is exactly this gate. -/
theorem verify_rate_limiter_recording :
    (∀ (env : VerifyEnv) (user : String) (rl rl1 : RateLimiter) (b : Bool)
      (gallery : List FaceModel) (r : VerifyResult),
      RateLimiter.check rl user env.checkNow = .ok rl1 →
      FaceModelStore.getGalleryForUser env.cipher env.key env.db user =
        .ok gallery →
      gallery ≠ [] →
      env.engineResult = .ok r →
      serviceVerifyGate env user rl b =
        { result := .ok r.result.matched,
          rl := if r.result.matched then RateLimiter.recordSuccess rl1 user
            else RateLimiter.recordFailure rl1 user env.recordNow,
          engineCalled := true, uidCheckEntered := b }) ∧
    (∀ (env : VerifyEnv) (user : String) (rl rl1 : RateLimiter) (b : Bool)
      (gallery : List FaceModel) (e : EngineError),
      RateLimiter.check rl user env.checkNow = .ok rl1 →
      FaceModelStore.getGalleryForUser env.cipher env.key env.db user =
        .ok gallery →
      gallery ≠ [] →
      env.engineResult = .error e →
      serviceVerifyGate env user rl b =
        { result := .error (.failed e.message), rl := rl1,
          engineCalled := true, uidCheckEntered := b }) ∧
    (∀ (env : VerifyEnv) (user : String) (rl : RateLimiter),
      env.sessionBus = true →
      serviceVerify env user rl = serviceVerifyGate env user rl false) := by
  refine ⟨?engineOk, ?engineErr, ?gate⟩
  case engineOk =>
    intro env user rl rl1 b gallery r hcheck hgal hne hres
    unfold serviceVerifyGate
    rw [hcheck, hgal]
    by_cases hm : r.result.matched <;> simp [hne, hres, hm]
  case engineErr =>
    intro env user rl rl1 b gallery e hcheck hgal hne hres
    unfold serviceVerifyGate
    rw [hcheck, hgal]
    simp [hne, hres]
  case gate =>
    intro env user rl hsb
    unfold serviceVerify
    rw [if_pos (by simp [hsb])]

/-- Witness for C3: with one enrolled legacy row for "alice" and a non-match
engine reply on the session bus, the reply is `false` and the limiter records
a failure on the post-`check` state; with a camera-error engine reply, the
error propagates and the post-`check` state is returned unchanged. -/
theorem verify_rate_limiter_recording_witness :
    serviceVerifyGate sessionEnvExample "alice" (fun _ => none) false =
      { result := .ok false,
        rl := RateLimiter.recordFailure postCheckRlExample "alice" 0,
        engineCalled := true, uidCheckEntered := false } ∧
    serviceVerifyGate cameraErrEnvExample "alice" (fun _ => none) false =
      { result := .error (.failed "camera error: gone"),
        rl := postCheckRlExample,
        engineCalled := true, uidCheckEntered := false } := by
  constructor
  · have h := verify_rate_limiter_recording.1 sessionEnvExample "alice"
      (fun _ => none) postCheckRlExample false legacyGalleryExample
      nonMatchReplyExample rfl legacyGallery_eval
      (by simp [legacyGalleryExample]) rfl
    simpa [nonMatchReplyExample, nonMatchResult] using h
  · exact verify_rate_limiter_recording.2.1 cameraErrEnvExample "alice"
      (fun _ => none) postCheckRlExample false legacyGalleryExample
      (.camera "gone") rfl legacyGallery_eval
      (by simp [legacyGalleryExample]) rfl

/-- C5: for every 512-entry vector of finite `f32` values (given bitwise),
`decrypt_embedding` of `encrypt_embedding` returns the vector bitwise, and
encrypting the same vector under two distinct fresh 12-byte nonces yields two
different blobs — each carrying its nonce as a prefix — which both decrypt
back to the vector. -/
theorem embedding_encrypt_roundtrip
    (c : AeadCipher) (key n1 n2 : List Nat) (v : List Nat)
    (hlen : v.length = embeddingDim)
    (hfin : ∀ b ∈ v, isFiniteF32 b = true)
    (hbits : ∀ b ∈ v, b < 2 ^ 32)
    (hn1 : n1.length = nonceLen) (hn2 : n2.length = nonceLen)
    (hne : n1 ≠ n2) :
    ∃ blob1 blob2,
      encryptEmbedding c key n1 v = .ok blob1 ∧
      encryptEmbedding c key n2 v = .ok blob2 ∧
      decryptEmbedding c key blob1 = .ok v ∧
      decryptEmbedding c key blob2 = .ok v ∧
      blob1.take nonceLen = n1 ∧ blob2.take nonceLen = n2 ∧
      blob1 ≠ blob2 := by
  refine ⟨n1 ++ c.encrypt key n1 (embeddingToBytes v),
    n2 ++ c.encrypt key n2 (embeddingToBytes v),
    encryptEmbedding_ok c key n1 v hlen hfin,
    encryptEmbedding_ok c key n2 v hlen hfin,
    decryptEmbedding_encrypted c key n1 v hlen hfin hbits hn1,
    decryptEmbedding_encrypted c key n2 v hlen hfin hbits hn2,
    ?take1, ?take2, ?neq⟩
  case take1 => rw [show nonceLen = n1.length from hn1.symm, List.take_left]
  case take2 => rw [show nonceLen = n2.length from hn2.symm, List.take_left]
  case neq =>
    intro heq
    apply hne
    have h1 : (n1 ++ c.encrypt key n1 (embeddingToBytes v)).take nonceLen
        = n1 := by
      rw [show nonceLen = n1.length from hn1.symm, List.take_left]
    have h2 : (n2 ++ c.encrypt key n2 (embeddingToBytes v)).take nonceLen
        = n2 := by
      rw [show nonceLen = n2.length from hn2.symm, List.take_left]
    rw [← h1, ← h2, heq]

/-- Witness for C5: the all-zeros embedding under the concrete tag cipher
with nonces `0…0` and `1 0…0`. -/
theorem embedding_encrypt_roundtrip_witness :
    ∃ blob1 blob2,
      encryptEmbedding padTagCipher [] (List.replicate 12 0)
        (List.replicate 512 0) = .ok blob1 ∧
      encryptEmbedding padTagCipher [] (1 :: List.replicate 11 0)
        (List.replicate 512 0) = .ok blob2 ∧
      decryptEmbedding padTagCipher [] blob1 =
        .ok (List.replicate 512 0) ∧
      decryptEmbedding padTagCipher [] blob2 =
        .ok (List.replicate 512 0) ∧
      blob1.take nonceLen = List.replicate 12 0 ∧
      blob2.take nonceLen = 1 :: List.replicate 11 0 ∧
      blob1 ≠ blob2 := by
  exact embedding_encrypt_roundtrip padTagCipher []
    (List.replicate 12 0) (1 :: List.replicate 11 0)
    (List.replicate 512 0) (by rw [List.length_replicate]; rfl)
    (by intro b hb; rw [List.eq_of_mem_replicate hb]; rfl)
    (by intro b hb; rw [List.eq_of_mem_replicate hb]; decide)
    (by rw [List.length_replicate]; rfl)
    (by rw [List.length_cons, List.length_replicate]; rfl)
    (by decide)

/-- C8: a blob of exactly 2048 bytes is decoded by the legacy plaintext
branch — little-endian f32×512, returned unchanged when every value is
finite — while a blob of any other length is either rejected as
`InvalidBlob` (when not longer than the 12-byte nonce) or treated as
nonce-prefixed ciphertext. -/
theorem decrypt_legacy_blob :
    (∀ (c : AeadCipher) (key blob : List Nat),
      blob.length = embeddingByteLen →
      decryptEmbedding c key blob = bytesToEmbeddingStrict blob) ∧
    (∀ v : List Nat, v.length = embeddingDim →
      (∀ b ∈ v, isFiniteF32 b = true) → (∀ b ∈ v, b < 2 ^ 32) →
      bytesToEmbeddingStrict (embeddingToBytes v) = .ok v) ∧
    (∀ (c : AeadCipher) (key blob : List Nat),
      blob.length ≠ embeddingByteLen → blob.length ≤ nonceLen →
      decryptEmbedding c key blob = .error (.invalidBlob blob.length)) ∧
    (∀ (c : AeadCipher) (key blob : List Nat),
      blob.length ≠ embeddingByteLen → nonceLen < blob.length →
      decryptEmbedding c key blob =
        match c.decrypt key (blob.take nonceLen) (blob.drop nonceLen) with
        | none => .error .decryptionFailed
        | some plaintext => bytesToEmbeddingStrict plaintext) := by
  refine ⟨?legacy, ?roundtrip, ?short, ?cipher⟩
  case legacy =>
    intro c key blob h
    unfold decryptEmbedding
    rw [if_pos h]
  case roundtrip =>
    exact bytesToEmbeddingStrict_embeddingToBytes
  case short =>
    intro c key blob h hshort
    unfold decryptEmbedding
    rw [if_neg h, if_pos hshort]
  case cipher =>
    intro c key blob h hlong
    unfold decryptEmbedding
    rw [if_neg h, if_neg (by omega)]

/-- Witness for C8: the 2048-byte all-zeros blob decodes to 512 zero floats
through the legacy branch; a 5-byte blob is rejected as `InvalidBlob 5`; a
20-byte blob goes to the ciphertext path and fails GCM authentication under
the concrete cipher. -/
theorem decrypt_legacy_blob_witness :
    decryptEmbedding padTagCipher [] (List.replicate embeddingByteLen 0) =
      .ok (List.replicate embeddingDim 0) ∧
    bytesToEmbeddingStrict (embeddingToBytes (List.replicate 512 0)) =
      .ok (List.replicate 512 0) ∧
    decryptEmbedding padTagCipher [] (List.replicate 5 0) =
      .error (.invalidBlob 5) ∧
    decryptEmbedding padTagCipher [] (List.replicate 20 0) =
      .error .decryptionFailed := by
  refine ⟨?_, ?_, ?_, ?_⟩
  · rw [decrypt_legacy_blob.1 padTagCipher [] _
      (by rw [List.length_replicate])]
    exact bytesToEmbeddingStrict_replicate_zero
  · exact decrypt_legacy_blob.2.1 (List.replicate 512 0)
      (by rw [List.length_replicate]; rfl)
      (by intro b hb; rw [List.eq_of_mem_replicate hb]; rfl)
      (by intro b hb; rw [List.eq_of_mem_replicate hb]; decide)
  · have h := decrypt_legacy_blob.2.2.1 padTagCipher []
      (List.replicate 5 0) (by rw [List.length_replicate]; decide)
      (by rw [List.length_replicate]; decide)
    rw [h, List.length_replicate]
  · have h := decrypt_legacy_blob.2.2.2 padTagCipher []
      (List.replicate 20 0) (by rw [List.length_replicate]; decide)
      (by rw [List.length_replicate]; decide)
    rw [h]
    rfl

/-- C1: inserting a model for user `A` under a fresh UUID leaves every other
user `B` unable to observe it — `get_gallery_for_user(B)` yields only models
owned by `B` and never the new id, `list_by_user(B)` never lists the new id,
and `remove(B, id)` reports `false` and deletes no row. -/
theorem store_cross_user_isolation
    (c : AeadCipher) (key : List Nat) (db db' : FacesDb)
    (newId createdAt : String) (nonce : List Nat) (A B label : String)
    (emb : EmbeddingRec) (q : Nat)
    (hAB : A ≠ B)
    (hfresh : ∀ row ∈ db, row.id ≠ newId)
    (hins : FaceModelStore.insert c key db newId createdAt nonce A label
      emb q = .ok (newId, db')) :
    (∀ models, FaceModelStore.getGalleryForUser c key db' B = .ok models →
      ∀ fm ∈ models, fm.user = B ∧ fm.id ≠ newId) ∧
    (∀ info ∈ FaceModelStore.listByUser db' B, info.id ≠ newId) ∧
    FaceModelStore.remove db' B newId = (false, db') := by
  unfold FaceModelStore.insert at hins
  cases hv : validateEmbeddingValues emb.values with
  | error e => rw [hv] at hins; cases hins
  | ok u =>
    rw [hv] at hins
    cases he : encryptEmbedding c key nonce emb.values with
    | error e => rw [he] at hins; cases hins
    | ok blob =>
      rw [he] at hins
      simp only [Except.ok.injEq, Prod.mk.injEq, true_and] at hins
      subst hins
      set rowNew : FaceRow :=
        { id := newId, user := A, label := label, embedding := blob,
          modelVersion := emb.modelVersion.getD "unknown",
          qualityScore := q, poseLabel := "frontal",
          createdAt := createdAt } with hrowNew
      have hsingle : List.filter (fun row => decide (row.user = B))
          [rowNew] = [] := by
        simp [hrowNew, List.filter_cons, hAB]
      refine ⟨?gallery, ?list, ?remove⟩
      case gallery =>
        intro models hgal fm hfm
        unfold FaceModelStore.getGalleryForUser at hgal
        rw [List.filter_append, hsingle, List.append_nil] at hgal
        obtain ⟨row, hrmem, hru, hri⟩ :=
          decryptRows_mem c key _ models hgal fm hfm
        have hmem := List.mem_filter.mp hrmem
        refine ⟨?_, ?_⟩
        · rw [hru]; exact of_decide_eq_true hmem.2
        · rw [hri]; exact hfresh row hmem.1
      case list =>
        intro info hinfo
        unfold FaceModelStore.listByUser at hinfo
        rw [(List.mergeSort_perm _ _).mem_iff] at hinfo
        obtain ⟨row, hrmem, hrow⟩ := List.mem_map.mp hinfo
        rw [List.filter_append, hsingle, List.append_nil] at hrmem
        have hmem := List.mem_filter.mp hrmem
        rw [← hrow]
        simpa using hfresh row hmem.1
      case remove =>
        unfold FaceModelStore.remove
        have hcount : List.countP
            (fun row => decide (row.id = newId ∧ row.user = B))
            (db ++ [rowNew]) = 0 := by
          rw [List.countP_eq_zero]
          intro a ha
          rcases List.mem_append.mp ha with h | h
          · simp [hfresh a h]
          · rw [List.mem_singleton] at h
            subst h
            simp [hrowNew, hAB]
        have hfilter : List.filter
            (fun row => decide ¬ (row.id = newId ∧ row.user = B))
            (db ++ [rowNew]) = db ++ [rowNew] := by
          rw [List.filter_eq_self]
          intro a ha
          rcases List.mem_append.mp ha with h | h
          · simp [hfresh a h]
          · rw [List.mem_singleton] at h
            subst h
            simp [hrowNew, hAB]
        simp only [hcount, hfilter]
        rfl

/-- The database produced by the C1 witness insertion: a single row for
"alice" with id "m1" and an all-zeros encrypted embedding. -/
def insertedDbExample : FacesDb :=
  [{ id := "m1", user := "alice", label := "default",
     embedding := List.replicate 12 0 ++
       (List.replicate 2048 0 ++ List.replicate 16 0),
     modelVersion := "w600k_r50", qualityScore := 0,
     poseLabel := "frontal", createdAt := "2026-01-01T00:00:00+00:00" }]

/-- Witness for C1: inserting for "alice" into an empty store, then probing
as "bob". -/
theorem store_cross_user_isolation_witness :
    (∀ info ∈ FaceModelStore.listByUser insertedDbExample "bob",
      info.id ≠ "m1") ∧
    FaceModelStore.remove insertedDbExample "bob" "m1" =
      (false, insertedDbExample) := by
  have hins : FaceModelStore.insert padTagCipher [] [] "m1"
      "2026-01-01T00:00:00+00:00" (List.replicate 12 0) "alice" "default"
      { values := List.replicate 512 0, modelVersion := some "w600k_r50" }
      0 = .ok ("m1", insertedDbExample) := by
    unfold FaceModelStore.insert
    have hv : validateEmbeddingValues (List.replicate 512 0) = .ok () :=
      validateEmbeddingValues_ok _ (by rw [List.length_replicate]; rfl)
        (by intro b hb; rw [List.eq_of_mem_replicate hb]; rfl)
    have he : encryptEmbedding padTagCipher [] (List.replicate 12 0)
        (List.replicate 512 0) =
        .ok (List.replicate 12 0 ++
          (List.replicate 2048 0 ++ List.replicate 16 0)) := by
      rw [encryptEmbedding_ok padTagCipher [] (List.replicate 12 0)
        (List.replicate 512 0) (by rw [List.length_replicate]; rfl)
        (by intro b hb; rw [List.eq_of_mem_replicate hb]; rfl)]
      rw [show embeddingToBytes (List.replicate 512 0) =
        List.replicate 2048 0 from embeddingToBytes_replicate_zero 512]
      rfl
    rw [hv, he]
    rfl
  have h := store_cross_user_isolation padTagCipher [] [] insertedDbExample
    "m1" "2026-01-01T00:00:00+00:00" (List.replicate 12 0) "alice" "bob"
    "default"
    { values := List.replicate 512 0, modelVersion := some "w600k_r50" }
    0 (by decide) (by intro row hrow; cases hrow) hins
  exact ⟨h.2.1, h.2.2⟩

/-- C6: during a verify with liveness enabled, when at least two captured
frames yielded landmarks and the §4.3 landmark-stability check
(`checkLandmarkStability`) fails on that landmark sequence, the engine
returns `matched = false` while still reporting the best cosine similarity
score seen by the per-frame matching loop, together with that frame's
quality. -/
theorem engine_liveness_forces_nonmatch
    (sq : ℚ → ℚ) (frames : List (Option FaceObs))
    (gallery : List GalleryEntry) (threshold : ℚ) (md : Option ℚ)
    (best : Option MatchResult) (bq : ℚ)
    (hloop : verifyFrameLoop sq frames gallery threshold = (best, bq, true))
    (hseq : 2 ≤ (landmarkSequenceOf frames).length)
    (hlive : (checkLandmarkStability sq (landmarkSequenceOf frames)
      md).isLive = false) :
    ∃ r, runVerify sq frames gallery threshold true md = .ok r ∧
      r.result.matched = false ∧
      r.result.similarity = (best.getD nonMatchResult).similarity ∧
      r.bestQuality = bq := by
  have hne : frames ≠ [] := by
    intro h
    subst h
    simp [verifyFrameLoop] at hloop
  refine ⟨VerifyResult.mk
    { best.getD nonMatchResult with matched := false } bq, ?_, rfl, rfl, rfl⟩
  unfold runVerify
  rw [if_neg (by simpa [List.isEmpty_iff] using hne), hloop]
  simp [hseq, hlive]

/-- Three identical frames — a static image: each detection carries the same
landmark set and an empty probe embedding against an empty gallery. -/
def staticFramesExample : List (Option FaceObs) :=
  [some { confidence := 1, embedding := [],
          landmarks := some ⟨(100, 50), (140, 50), (0, 0), (0, 0), (0, 0)⟩ },
   some { confidence := 1, embedding := [],
          landmarks := some ⟨(100, 50), (140, 50), (0, 0), (0, 0), (0, 0)⟩ },
   some { confidence := 1, embedding := [],
          landmarks := some ⟨(100, 50), (140, 50), (0, 0), (0, 0), (0, 0)⟩ }]

/-- Witness for C6: three identical frames fail liveness (displacement 0 <
0.8), and the verify reply is forced to `matched = false` with the best
similarity still reported. -/
theorem engine_liveness_forces_nonmatch_witness :
    ∃ r, runVerify (fun _ => 0) staticFramesExample [] 0 true none =
      .ok r ∧ r.result.matched = false ∧ r.result.similarity = 0 ∧
      r.bestQuality = 1 := by
  have hloop : verifyFrameLoop (fun _ => 0) staticFramesExample [] 0 =
      (some nonMatchResult, 1, true) := rfl
  have hlive : (checkLandmarkStability (fun _ => 0)
      (landmarkSequenceOf staticFramesExample) none).isLive = false := by
    simp [checkLandmarkStability, landmarkSequenceOf, staticFramesExample,
      pairDisplacement, pointDisplacement, defaultMinEyeDisplacement]
  obtain ⟨r, h1, h2, h3, h4⟩ := engine_liveness_forces_nonmatch
    (fun _ => 0) staticFramesExample [] 0 none (some nonMatchResult) 1
    hloop (by decide) hlive
  exact ⟨r, h1, h2, by rw [h3]; rfl, h4⟩

end Visage
